import Mathlib

/-!
Verification development for the documentation-viewer component
(`src/components/Documentation.jsx` of the gcpcicd repository).

The component's logic is shallowly embedded: its pure helpers
(`getFilteredSections`, `highlightText`) become Lean functions over
`String`, and its stateful behaviour (mount/unmount, timers, clipboard
feedback, navigation) becomes explicit state passing over a `World`
record with a discrete-time timer queue mirroring the single-threaded
JS event loop.

String primitives of the host platform (`toLowerCase`, `trim`,
`includes`, `RegExp`/`split`) are modelled on the ASCII fragment the
component actually feeds them; the regular-expression model covers the
fragment of JS `RegExp` exercised by the patterns in this development
(literal characters, `.`, and capturing groups), and reports the same
syntax errors JS reports on the malformed patterns evaluated here.
-/

namespace GcpDocs

/-- JS `String.prototype.toLowerCase`, restricted to ASCII: `Char.toLower`
lowercases exactly the characters `A`–`Z`, which is the behaviour of
`toLowerCase` on every string occurring in the component. -/
def jsToLower (s : String) : String :=
  String.mk (s.toList.map Char.toLower)

/-- JS `String.prototype.trim`, restricted to ASCII whitespace
(space, tab, CR, LF), the only whitespace occurring here. -/
def jsTrim (s : String) : String :=
  String.mk (((s.toList.dropWhile Char.isWhitespace).reverse.dropWhile Char.isWhitespace).reverse)

/-- Does the character list `s` begin with `q`? (helper for `containsSeq`) -/
def beginsWith : List Char → List Char → Bool
  | [], _ => true
  | _ :: _, [] => false
  | a :: as, b :: bs => a == b && beginsWith as bs

/-- Does the character list contain `q` as a contiguous run? -/
def containsSeq (q : List Char) : List Char → Bool
  | [] => q.isEmpty
  | c :: rest => beginsWith q (c :: rest) || containsSeq q rest

/-- JS `String.prototype.includes`: `jsIncludes s q` is `s.includes(q)`. -/
def jsIncludes (s q : String) : Bool :=
  containsSeq q.toList s.toList

/-- One entry of the section registry (`Documentation.jsx`, lines 30–43):
`{ id, title, icon }`. -/
structure Section where
  id : String
  title : String
  icon : String
deriving Repr, DecidableEq

/-- The fixed section registry, `this.sections` (`Documentation.jsx`, lines 30–43). -/
def docSections : List Section :=
  [ ⟨"overview", "Project Overview", "🚀"⟩,
    ⟨"structure", "Folder Structure", "📁"⟩,
    ⟨"k8s-basics", "Kubernetes Basics", "☸️"⟩,
    ⟨"deployment", "Deployment YAML", "📦"⟩,
    ⟨"service", "Service YAML", "🔌"⟩,
    ⟨"ingress", "Ingress YAML", "🚪"⟩,
    ⟨"certificate", "SSL Certificate", "🔒"⟩,
    ⟨"backend-config", "Backend Config", "⚡"⟩,
    ⟨"kustomize", "Kustomize", "🧩"⟩,
    ⟨"cicd", "CI/CD Workflows", "🔄"⟩,
    ⟨"commands", "Common Commands", "💻"⟩,
    ⟨"troubleshooting", "Troubleshooting", "🔧"⟩ ]

/-- Embeds `getFilteredSections` (`Documentation.jsx`, lines 83–94), with the
section list and the search term passed explicitly:
if `!searchTerm.trim()` return all sections, else lowercase the raw
(untrimmed) term once and keep the sections whose lowercased title or id
includes it. -/
def filterSections (sections : List Section) (searchTerm : String) : List Section :=
  if jsTrim searchTerm = "" then sections
  else
    let term := jsToLower searchTerm
    sections.filter fun s => jsIncludes (jsToLower s.title) term || jsIncludes (jsToLower s.id) term

/-- Syntax tree for the fragment of JS `RegExp` patterns exercised in this
development: literal characters, the wildcard `.`, and capturing groups
`( … )`. -/
inductive RAtom where
  | lit : Char → RAtom
  | dot : RAtom
  | group : List RAtom → RAtom
deriving Repr

/-- Recursive-descent reading of a pattern, mirroring JS `new RegExp(pat)`.
Returns the parsed atom sequence together with the unconsumed suffix
(which begins with `)` when a group is being closed by the caller).
Errors reproduce the JS `SyntaxError` messages for the malformed inputs
evaluated in this development: an unclosed `(` ("Unterminated group"), a
quantifier with nothing before it ("Nothing to repeat"), and an
unterminated `[` class.  Constructs outside the modelled fragment
(quantifiers after an atom, classes, alternation, escapes, anchors) are
reported as unsupported; no pattern evaluated below contains them. -/
def parseSeq : Nat → List Char → Except String (List RAtom × List Char)
  | 0, _ => .error ("out of fuel")
  | _ + 1, [] => .ok ([], [])
  | fuel + 1, c :: cs =>
    if c = ')' then .ok ([], c :: cs)
    else if c = '(' then
      match parseSeq fuel cs with
      | .error e => .error e
      | .ok (inner, rest) =>
        match rest with
        | ')' :: rest2 =>
          match parseSeq fuel rest2 with
          | .error e => .error e
          | .ok (tail, rest3) => .ok (RAtom.group inner :: tail, rest3)
        | _ => .error ("Unterminated group")
    else if c = '*' ∨ c = '+' ∨ c = '?' then .error ("Nothing to repeat")
    else if c = '[' then .error ("Unterminated character class")
    else if c = '\\' ∨ c = '|' ∨ c = '^' ∨ c = '$' ∨ c = '{' ∨ c = '}' then
      .error ("metacharacter outside modelled fragment")
    else if c = '.' then
      match parseSeq fuel cs with
      | .error e => .error e
      | .ok (tail, rest) => .ok (RAtom.dot :: tail, rest)
    else
      match parseSeq fuel cs with
      | .error e => .error e
      | .ok (tail, rest) => .ok (RAtom.lit c :: tail, rest)

/-- JS `new RegExp(pat, "gi")`: parse the whole pattern or raise the
corresponding `SyntaxError`.  A `)` left at top level is the JS error for
an unmatched close parenthesis. -/
def jsRegexParse (pat : String) : Except String (List RAtom) :=
  match parseSeq (pat.length + 1) pat.toList with
  | .error e => .error e
  | .ok (atoms, []) => .ok atoms
  | .ok (_, _ :: _) => .error ("Unmatched close paren")

/-- Case-insensitive character comparison (the `i` flag, ASCII folding). -/
def charMatches (ci : Bool) (p c : Char) : Bool :=
  if ci then p.toLower == c.toLower else p == c

/-- Match an atom sequence against a prefix of the input.  Every atom of the
modelled fragment consumes a fixed number of characters, so matching is
deterministic.  On success returns `(consumed, rest, captures)` where
`captures` lists each group's matched text in order of the opening
parentheses (a group's own capture precedes those of its sub-groups),
exactly the numbering JS assigns.  The `Nat` argument is recursion fuel:
each step descends into one atom, so any bound above the node count of
the pattern — e.g. the pattern's length in characters — suffices, and
callers pass one derived from the pattern string. -/
def matchAtoms (ci : Bool) : Nat → List RAtom → List Char → Option (List Char × List Char × List String)
  | 0, _, _ => none
  | _ + 1, [], s => some ([], s, [])
  | _ + 1, RAtom.lit _ :: _, [] => none
  | fuel + 1, RAtom.lit p :: as, c :: cs =>
    if charMatches ci p c then
      match matchAtoms ci fuel as cs with
      | none => none
      | some (con, rest, caps) => some (c :: con, rest, caps)
    else none
  | _ + 1, RAtom.dot :: _, [] => none
  | fuel + 1, RAtom.dot :: as, c :: cs =>
    if c == '\n' || c == '\r' then none
    else
      match matchAtoms ci fuel as cs with
      | none => none
      | some (con, rest, caps) => some (c :: con, rest, caps)
  | fuel + 1, RAtom.group g :: as, s =>
    match matchAtoms ci fuel g s with
    | none => none
    | some (con1, rest1, caps1) =>
      match matchAtoms ci fuel as rest1 with
      | none => none
      | some (con2, rest2, caps2) =>
        some (con1 ++ con2, rest2, (String.mk con1 :: caps1) ++ caps2)

/-- Scanning loop of JS `String.prototype.split` with a separator regex
(ES `RegExpSplit`): `p` is the start of the current piece, `q` the scan
position.  A failed match advances `q`; a match whose end equals `p`
(an empty match at the piece start) also advances `q`; otherwise the
piece `s[p..q)` and the captured groups are emitted and scanning resumes
at the match end. -/
def splitGo (ci : Bool) (mf : Nat) (ast : List RAtom) (s : List Char) :
    Nat → Nat → Nat → List String → List String
  | 0, p, _, acc => acc ++ [String.mk (s.drop p)]
  | fuel + 1, p, q, acc =>
    if s.length ≤ q then acc ++ [String.mk (s.drop p)]
    else
      match matchAtoms ci mf ast (s.drop q) with
      | none => splitGo ci mf ast s fuel p (q + 1) acc
      | some (con, _, caps) =>
        let e := q + con.length
        if e = p then splitGo ci mf ast s fuel p (q + 1) acc
        else splitGo ci mf ast s fuel e e (acc ++ [String.mk ((s.drop p).take (q - p))] ++ caps)

/-- JS `text.split(regex)` for a parsed separator: the ES special case for
empty input, then the scanning loop (the loop fuel bounds the number of
scan steps, each of which advances the scan position at least every
other step, so `2·|s| + 3` iterations always suffice; `mf` is the
matcher fuel, see `matchAtoms`). -/
def jsSplit (ci : Bool) (mf : Nat) (ast : List RAtom) (text : String) : List String :=
  let s := text.toList
  if s.length = 0 then
    match matchAtoms ci mf ast s with
    | some _ => []
    | none => [text]
  else splitGo ci mf ast s (2 * s.length + 3) 0 0 []

/-- One element of the "segments" view used for highlighting: a run of
text and whether it is rendered as a `<mark>` match. -/
structure Segment where
  content : String
  isMatch : Bool
deriving Repr, DecidableEq

deriving instance DecidableEq for Except

/-- Concatenation of the segments' contents, the quantity that should
reconstruct the original text. -/
def segmentsConcat (segs : List Segment) : String :=
  String.join (segs.map Segment.content)

/-- Embeds `highlightText` (`Documentation.jsx`, lines 96–110) as the
segments view it renders.  A blank (whitespace-only) search term returns
the whole text as one unhighlighted run.  Otherwise the code builds
`new RegExp("(" + searchTerm + ")", "gi")` from the raw, unescaped term —
so pattern syntax errors propagate, modelled by `Except.error` — splits
the text on it, and marks exactly the parts whose lowercasing equals the
lowercased term. -/
def highlightText (text searchTerm : String) : Except String (List Segment) :=
  if jsTrim searchTerm = "" then .ok [⟨text, false⟩]
  else
    match jsRegexParse ("(" ++ searchTerm ++ ")") with
    | .error e => .error e
    | .ok ast =>
      .ok ((jsSplit true (searchTerm.length + 3) ast text).map
        fun part => ⟨part, jsToLower part == jsToLower searchTerm⟩)

/-- The component's `this.state` record (`Documentation.jsx`, lines 6–13). -/
structure UIState where
  activeSection : Option String
  searchTerm : String
  isLoading : Bool
  loadingError : Option String
  isMobileMenuOpen : Bool
  copiedCodeId : Option String
deriving Repr, DecidableEq

/-- The initial state object (`Documentation.jsx`, lines 6–13). -/
def initialState : UIState :=
  { activeSection := none, searchTerm := "", isLoading := true,
    loadingError := none, isMobileMenuOpen := false, copiedCodeId := none }

/-- The two timer callbacks the component creates: the load-phase callback
(`componentDidMount`, line 18, sets `isLoading` to `false`) and the
clipboard-acknowledgment callback (`copyToClipboard`, line 75, sets
`copiedCodeId` to `null` unconditionally — the source has no guard
comparing it with the `codeId` that scheduled it). -/
inductive TimerKind where
  | loadFire
  | ackClear
deriving Repr, DecidableEq

/-- A pending `setTimeout` entry: its handle (`id`), its absolute firing
time in ms, and which callback body it runs. -/
structure Timer where
  id : Nat
  fireAt : Nat
  kind : TimerKind
deriving Repr, DecidableEq

/-- The single-threaded JS world around one component instance: current
time, the pending-timer queue, whether the component is mounted, its
state, the one instance field `this.loadingTimer` that stores a timer
handle (the acknowledgment timers' handles are discarded by the source),
the scroll requests issued to the DOM, the `console.error` count, and
the number of `setState` calls attempted after unmount. -/
structure World where
  now : Nat
  nextId : Nat
  timers : List Timer
  mounted : Bool
  ui : UIState
  loadingTimer : Option Nat
  scrollRequests : List String
  consoleErrors : Nat
  lateUpdates : Nat
deriving Repr, DecidableEq

/-- The world before the component exists. -/
def initWorld : World :=
  { now := 0, nextId := 0, timers := [], mounted := false, ui := initialState,
    loadingTimer := none, scrollRequests := [], consoleErrors := 0, lateUpdates := 0 }

/-- React `this.setState`: updates the state while mounted; on an unmounted
component the update is dropped and counted (`lateUpdates`), which is
React's no-op-with-warning behaviour for a state update after teardown. -/
def setStateWith (w : World) (f : UIState → UIState) : World :=
  if w.mounted then { w with ui := f w.ui } else { w with lateUpdates := w.lateUpdates + 1 }

/-- Embeds `componentDidMount` (`Documentation.jsx`, lines 15–21):
schedule the 1000 ms load timer and store its handle in
`this.loadingTimer`. -/
def componentDidMount (w : World) : World :=
  { w with nextId := w.nextId + 1,
           timers := w.timers ++ [⟨w.nextId, w.now + 1000, TimerKind.loadFire⟩],
           loadingTimer := some w.nextId }

/-- Mounting: fresh state, then `componentDidMount`. -/
def mount (w : World) : World :=
  componentDidMount { w with mounted := true, ui := initialState }

/-- Embeds `componentWillUnmount` (`Documentation.jsx`, lines 23–28) plus
teardown: `clearTimeout(this.loadingTimer)` removes that one handle from
the queue — only it; the source stores no handle for the acknowledgment
timers, so they stay pending — and the component becomes unmounted. -/
def componentWillUnmount (w : World) : World :=
  let w1 :=
    match w.loadingTimer with
    | some h => { w with timers := w.timers.filter fun t => t.id ≠ h }
    | none => w
  { w1 with mounted := false }

/-- Runs a timer callback body (see `TimerKind`). -/
def runCallback (w : World) : TimerKind → World
  | TimerKind.loadFire => setStateWith w fun st => { st with isLoading := false }
  | TimerKind.ackClear => setStateWith w fun st => { st with copiedCodeId := none }

/-- The earliest pending timer (ties broken by scheduling order, i.e. by
handle), matching the event loop's delivery order. -/
def pickNext (ts : List Timer) : Option Timer :=
  ts.foldl
    (fun acc t =>
      match acc with
      | none => some t
      | some b => if t.fireAt < b.fireAt ∨ (t.fireAt = b.fireAt ∧ t.id < b.id) then some t else some b)
    none

/-- Deliver, in order, every pending timer due by time `t`; neither callback
schedules new timers, so the queue length bounds the number of steps. -/
def advanceGo : Nat → World → Nat → World
  | 0, w, t => { w with now := t }
  | fuel + 1, w, t =>
    match pickNext w.timers with
    | none => { w with now := t }
    | some tm =>
      if tm.fireAt ≤ t then
        advanceGo fuel
          (runCallback { w with now := tm.fireAt, timers := w.timers.filter fun x => x.id ≠ tm.id } tm.kind) t
      else { w with now := t }

/-- Advance the clock to absolute time `t`, firing all timers due by then. -/
def advanceTo (w : World) (t : Nat) : World :=
  advanceGo (w.timers.length + 1) w t

/-- Embeds the success path of `copyToClipboard` (`Documentation.jsx`,
lines 71–81): after `navigator.clipboard.writeText` resolves, set
`copiedCodeId` to the given id and schedule an anonymous 2000 ms timer.
Faithful to the source: the `setTimeout` handle is discarded (not stored
in any instance field), no previously pending acknowledgment timer is
cleared, and the scheduled callback clears `copiedCodeId`
unconditionally. -/
def copyToClipboardOk (codeId : String) (w : World) : World :=
  let w1 := setStateWith w fun st => { st with copiedCodeId := some codeId }
  { w1 with timers := w1.timers ++ [⟨w1.nextId, w1.now + 2000, TimerKind.ackClear⟩],
            nextId := w1.nextId + 1 }

/-- Embeds the failure path of `copyToClipboard` (`Documentation.jsx`,
lines 78–80): the rejection is caught and `console.error` logged; no
state update, no timer. -/
def copyToClipboardErr (w : World) : World :=
  { w with consoleErrors := w.consoleErrors + 1 }

/-- Embeds `scrollToSection` (`Documentation.jsx`, lines 45–51).
`document.getElementById(id)` is modelled by membership in the list of
on-page anchor ids: when present, a scroll request is issued and the
state updated; otherwise nothing happens. -/
def scrollToSection (anchors : List String) (id : String) (w : World) : World :=
  if anchors.contains id then
    setStateWith { w with scrollRequests := w.scrollRequests ++ [id] }
      fun st => { st with activeSection := some id, isMobileMenuOpen := false }
  else w

/-- Embeds the Retry button's `onClick`
(`Documentation.jsx`, line 146): `setState({ isLoading: true,
loadingError: null })` — and nothing else; in particular no timer is
scheduled. -/
def retryClick (w : World) : World :=
  setStateWith w fun st => { st with isLoading := true, loadingError := none }

/-- Scenario for the overlapping-copy race: mount at 0, first successful
copy (`"c1"`) at 1100 ms, second successful copy (`"c2"`) at 1600 ms.
The first acknowledgment timer is due at 3100 ms, the second at 3600 ms. -/
def copyRace : World :=
  copyToClipboardOk "c2" (advanceTo (copyToClipboardOk "c1" (advanceTo (mount initWorld) 1100)) 1600)

/-- Scenario: unmount 200 ms after mount, before the load timer fires. -/
def unmountEarly : World :=
  componentWillUnmount (advanceTo (mount initWorld) 200)

/-- Scenario: mount at 0, successful copy at 1100 ms, unmount at 1200 ms
while the 3100 ms acknowledgment timer is pending. -/
def unmountWithAck : World :=
  componentWillUnmount (advanceTo (copyToClipboardOk "c1" (advanceTo (mount initWorld) 1100)) 1200)

/-- A mounted component sitting in the error state (`isLoading = false`,
`loadingError` present), the state from which the Retry button is
rendered; the load timer has long fired and its stale handle remains in
`this.loadingTimer`. -/
def errorWorld : World :=
  { now := 1000, nextId := 1, timers := [], mounted := true,
    ui := { activeSection := none, searchTerm := "", isLoading := false,
            loadingError := some "Failed to fetch documentation", isMobileMenuOpen := false,
            copiedCodeId := none },
    loadingTimer := some 0, scrollRequests := [], consoleErrors := 0, lateUpdates := 0 }

/-- C1: the claim says the first acknowledgment timer is cancelled when
`copy(t2,"c2")` arrives, so 2000 ms after the first copy `copiedCodeId`
still equals `"c2"`.  The source (`Documentation.jsx`, lines 75–77)
stores no handle for the acknowledgment timer and cancels nothing, and
its callback clears `copiedCodeId` unconditionally: in the race scenario
(first copy at 1100 ms, second at 1600 ms) the acknowledgment is still
`"c2"` at 3099 ms, but at 3100 ms — exactly 2000 ms after the first call
— the stale first timer fires and clears it to `none`, contradicting the
claim. -/
theorem c1_stale_ack_timer_fires :
    (advanceTo copyRace 3099).ui.copiedCodeId = some "c2" ∧
    (advanceTo copyRace 3100).ui.copiedCodeId = none := by
  decide

/-- C2: the claim says every timer the component started is cancelled on
unmount.  The load-timer half is true: unmounting 200 ms after mount
leaves an empty timer queue and the state is never mutated afterwards.
The acknowledgment half is false: after a successful copy at 1100 ms and
an unmount at 1200 ms, the 3100 ms acknowledgment timer — whose handle
the source never stored — is still pending after
`componentWillUnmount`, and when it fires it attempts a `setState` on
the unmounted component (`lateUpdates = 1`). -/
theorem c2_unmount_timer_cleanup :
    unmountEarly.timers = [] ∧
    (advanceTo unmountEarly 10000).ui = initialState ∧
    (advanceTo unmountEarly 10000).lateUpdates = 0 ∧
    unmountWithAck.timers = [⟨1, 3100, TimerKind.ackClear⟩] ∧
    (advanceTo unmountWithAck 10000).lateUpdates = 1 := by
  decide

/-- C3: the claim says the segments view does not fail at runtime on
pattern-special queries.  The source (`Documentation.jsx`, line 100)
interpolates the raw query into `new RegExp("(" + q + ")", "gi")`, so
the queries `"("`, `"*"` and `"["` produce the invalid patterns `"(()"`,
`"(*)"` and `"([)"` and the `RegExp` constructor throws a
`SyntaxError`, contradicting the claim. -/
theorem c3_highlight_regex_error :
    highlightText "Kubernetes Basics" "(" = Except.error "Unterminated group" ∧
    highlightText "Kubernetes Basics" "*" = Except.error "Nothing to repeat" ∧
    highlightText "Kubernetes Basics" "[" = Except.error "Unterminated character class" := by
  decide

/-- C4: the claim says `retry()` resets the load flags and restarts the
load timer so the component reaches the ready state.  The Retry button
(`Documentation.jsx`, line 146) only runs
`setState({ isLoading: true, loadingError: null })`: the reset half
holds, but no timer is scheduled, so one hour later the component is
still in `isLoading = true` and never becomes ready, contradicting the
claim. -/
theorem c4_retry_never_ready :
    (retryClick errorWorld).ui.isLoading = true ∧
    (retryClick errorWorld).ui.loadingError = none ∧
    (retryClick errorWorld).timers = [] ∧
    (advanceTo (retryClick errorWorld) 3600000).ui.isLoading = true := by
  decide

/-- C5: `filterSections` is an order-preserving subsequence of its input;
a query that trims to empty returns the registry unchanged; otherwise a
section is kept exactly when its lowercased title or id contains the
lowercased query. -/
theorem c5_filterSections_spec (S : List Section) (q : String) :
    List.Sublist (filterSections S q) S ∧
    (jsTrim q = "" → filterSections S q = S) ∧
    (jsTrim q ≠ "" → ∀ s, s ∈ filterSections S q ↔
      s ∈ S ∧ (jsIncludes (jsToLower s.title) (jsToLower q) = true ∨
               jsIncludes (jsToLower s.id) (jsToLower q) = true)) := by
  refine ⟨?_, ?_, ?_⟩
  · unfold filterSections
    split
    · exact List.Sublist.refl S
    · exact List.filter_sublist S
  · intro h
    simp [filterSections, h]
  · intro h s
    simp [filterSections, h, List.mem_filter]

/-- Witness for C5 at a concrete instance: the empty query and a
pattern-free query over the real registry, with both hypotheses
discharged by evaluation. -/
theorem c5_filterSections_spec_witness :
    filterSections docSections "" = docSections ∧
    (⟨"overview", "Project Overview", "🚀"⟩ ∈ filterSections docSections "over" ↔
      (⟨"overview", "Project Overview", "🚀"⟩ : Section) ∈ docSections ∧
      (jsIncludes (jsToLower "Project Overview") (jsToLower "over") = true ∨
       jsIncludes (jsToLower "overview") (jsToLower "over") = true)) :=
  ⟨(c5_filterSections_spec docSections "").2.1 (by decide),
   (c5_filterSections_spec docSections "over").2.2 (by decide) ⟨"overview", "Project Overview", "🚀"⟩⟩

/-- C6: the claim says concatenating the segments of
`highlightMatches(text, q)` always reconstructs `text`.  Because the raw
query is interpolated into the pattern, a query with its own
parenthesised group adds a second capture to the `split` result
(JS `split` interleaves every capture), duplicating text: for
`text = "xaby"`, `q = "a(b)"` the segments are
`["x", "ab", "b", "y"]`, which concatenate to `"xabby"`, not `"xaby"`,
contradicting the claim. -/
theorem c6_highlight_concat_broken :
    highlightText "xaby" "a(b)" =
      Except.ok [⟨"x", false⟩, ⟨"ab", false⟩, ⟨"b", false⟩, ⟨"y", false⟩] ∧
    segmentsConcat [⟨"x", false⟩, ⟨"ab", false⟩, ⟨"b", false⟩, ⟨"y", false⟩] = "xabby" ∧
    "xabby" ≠ "xaby" := by
  decide

/-- C7: navigating to an id with no on-page anchor is a complete no-op:
the whole world — state, timers, scroll requests, error counters — is
unchanged and no error is raised. -/
theorem c7_unknown_id_noop (anchors : List String) (id : String) (w : World)
    (h : anchors.contains id = false) :
    scrollToSection anchors id w = w := by
  have h2 : id ∉ anchors := by simpa using h
  simp [scrollToSection, h2]

/-- Witness for C7: navigating to `"missing"` when only `"overview"` and
`"structure"` have anchors leaves the freshly mounted world unchanged. -/
theorem c7_unknown_id_noop_witness :
    scrollToSection ["overview", "structure"] "missing" (mount initWorld) = mount initWorld :=
  c7_unknown_id_noop ["overview", "structure"] "missing" (mount initWorld) (by decide)

/-- C8: navigating to an id with an existing anchor issues exactly one
scroll request for it, sets it active, closes the mobile menu, and
leaves every other state field, the timer queue and mountedness
unchanged. -/
theorem c8_known_id_navigates (anchors : List String) (id : String) (w : World)
    (ha : anchors.contains id = true) (hm : w.mounted = true) :
    (scrollToSection anchors id w).ui.activeSection = some id ∧
    (scrollToSection anchors id w).ui.isMobileMenuOpen = false ∧
    (scrollToSection anchors id w).ui.searchTerm = w.ui.searchTerm ∧
    (scrollToSection anchors id w).ui.isLoading = w.ui.isLoading ∧
    (scrollToSection anchors id w).ui.loadingError = w.ui.loadingError ∧
    (scrollToSection anchors id w).ui.copiedCodeId = w.ui.copiedCodeId ∧
    (scrollToSection anchors id w).scrollRequests = w.scrollRequests ++ [id] ∧
    (scrollToSection anchors id w).timers = w.timers ∧
    (scrollToSection anchors id w).mounted = w.mounted := by
  have ha2 : id ∈ anchors := by simpa using ha
  simp [scrollToSection, setStateWith, ha2, hm]

/-- Witness for C8: navigating to `"overview"` from the freshly mounted
world, with both hypotheses discharged by evaluation. -/
theorem c8_known_id_navigates_witness :
    (scrollToSection ["overview"] "overview" (mount initWorld)).ui.activeSection = some "overview" ∧
    (scrollToSection ["overview"] "overview" (mount initWorld)).ui.isMobileMenuOpen = false ∧
    (scrollToSection ["overview"] "overview" (mount initWorld)).ui.searchTerm = (mount initWorld).ui.searchTerm ∧
    (scrollToSection ["overview"] "overview" (mount initWorld)).ui.isLoading = (mount initWorld).ui.isLoading ∧
    (scrollToSection ["overview"] "overview" (mount initWorld)).ui.loadingError = (mount initWorld).ui.loadingError ∧
    (scrollToSection ["overview"] "overview" (mount initWorld)).ui.copiedCodeId = (mount initWorld).ui.copiedCodeId ∧
    (scrollToSection ["overview"] "overview" (mount initWorld)).scrollRequests = (mount initWorld).scrollRequests ++ ["overview"] ∧
    (scrollToSection ["overview"] "overview" (mount initWorld)).timers = (mount initWorld).timers ∧
    (scrollToSection ["overview"] "overview" (mount initWorld)).mounted = (mount initWorld).mounted :=
  c8_known_id_navigates ["overview"] "overview" (mount initWorld) (by decide) (by decide)

/-- C9: when the clipboard write rejects, the catch block only logs: the
UI state, the timer queue, the scroll requests and mountedness are all
unchanged — in particular `copiedCodeId` is not set and no
acknowledgment timer starts — and the failure is counted on the
`console.error` sink, never surfaced in the state. -/
theorem c9_copy_failure_silent (w : World) :
    (copyToClipboardErr w).ui = w.ui ∧
    (copyToClipboardErr w).timers = w.timers ∧
    (copyToClipboardErr w).scrollRequests = w.scrollRequests ∧
    (copyToClipboardErr w).mounted = w.mounted ∧
    (copyToClipboardErr w).consoleErrors = w.consoleErrors + 1 := by
  simp [copyToClipboardErr]

/-- C10: both `filterSections` and the segments view match against the
raw, untrimmed query.  Over the real registry, `"over"` matches the
Project Overview section, but `"over "` — non-empty after trimming,
carrying a trailing space — matches nothing: the section is excluded and
`highlightText` returns the title as a single unhighlighted segment,
even though the trimmed query `"over"` both filters and highlights. -/
theorem c10_raw_untrimmed_query :
    filterSections docSections "over" = [⟨"overview", "Project Overview", "🚀"⟩] ∧
    filterSections docSections "over " = [] ∧
    jsIncludes (jsToLower "Project Overview") (jsToLower "over") = true ∧
    jsTrim "over " ≠ "" ∧
    highlightText "Project Overview" "over " = Except.ok [⟨"Project Overview", false⟩] ∧
    highlightText "Project Overview" "over" =
      Except.ok [⟨"Project ", false⟩, ⟨"Over", true⟩, ⟨"view", false⟩] := by
  decide

end GcpDocs
